import Mathlib

/-!
Verification of the MAGICA orchestrator agent
(source: src/mcp/agents/orchestrator.py, class OrchestratorAgent).

The orchestrator's behaviour is embedded shallowly:
* Python dictionaries become association lists over a JSON-like `Value` type;
* every remote call (gRPC query, message send, OpenAI request) is an input
  to the embedded function, `Option`/a result type encoding "the call raised";
* every `logger` call inside the dispatch loop becomes an `Event` in a trace,
  so that the function's observable effects are ordinary returned data.
-/

/-- JSON-like values, the payloads stored in the Python dicts of the
orchestrator (session context entries, step parameters). Numbers are
modelled as integers; every numeric literal in the source is integral. -/
inductive Value where
  | null : Value
  | bool : Bool → Value
  | num : Int → Value
  | str : String → Value
  | list : List Value → Value
  | obj : List (String × Value) → Value

/-- A Python `dict` whose keys are strings, as an association list in
insertion order. -/
abbrev Dict := List (String × Value)

/-- `d.get(k)` on a Python dict: `some v` when the key is present,
`none` (Python `None`) when absent. -/
def dictGet (d : Dict) (k : String) : Option Value :=
  match d.find? (fun kv => kv.1 == k) with
  | some kv => some kv.2
  | none => none

/-- `d.get(k, default)` on a Python dict. -/
def dictGetD (d : Dict) (k : String) (dflt : Value) : Value :=
  (dictGet d k).getD dflt

/-- `listStartsWith hay needle` : `needle` is a leading subsequence of `hay`. -/
def listStartsWith : List Char → List Char → Bool
  | _, [] => true
  | [], _ :: _ => false
  | c :: cs, d :: ds => c == d && listStartsWith cs ds

/-- Contiguous-occurrence test on character lists. -/
def listContainsSeq : List Char → List Char → Bool
  | [], needle => needle.isEmpty
  | c :: t, needle => listStartsWith (c :: t) needle || listContainsSeq t needle

/-- Python's substring test `needle in hay` for strings. -/
def strContains (hay needle : String) : Bool :=
  listContainsSeq hay.toList needle.toList

/-- Python's `str.lower()`, as characterwise ASCII lowercasing (every
keyword in the classification table is ASCII). -/
def strToLower (s : String) : String := ⟨s.data.map Char.toLower⟩

/-- `any(word in p for word in words)` from `_analyze_with_patterns`. -/
def anyWordIn (words : List String) (p : String) : Bool :=
  words.any (fun w => strContains p w)

/-- One workflow step as produced by the intent analysis: the dict
with keys `agent_type`, `action`, `parameters`, `depends_on`. -/
structure Step where
  agent_type : String
  action : String
  parameters : List (String × Value)
  depends_on : List String

/-- The analysis result (a Plan): the dict with keys `intent`,
`complexity`, `workflow` returned by the analysis strategies. -/
structure Analysis where
  intent : String
  complexity : String
  workflow : List Step

/-- Trigger keywords of the cleanup rule in `_analyze_with_patterns`. -/
def cleanupWords : List String := ["clean", "cleanup", "fix", "duplicate", "short"]

/-- Trigger keywords of the melody rule in `_analyze_with_patterns`. -/
def melodyWords : List String := ["melody", "tune", "song", "compose"]

/-- Trigger keywords of the drum rule in `_analyze_with_patterns`. -/
def drumWords : List String := ["drum", "beat", "rhythm", "percussion"]

/-- Embeds `OrchestratorAgent._analyze_with_patterns`: deterministic
first-match keyword classification over the lowercased prompt. -/
def analyze_with_patterns (user_prompt : String) (session_context : Dict) : Analysis :=
  let prompt_lower := strToLower user_prompt
  if anyWordIn cleanupWords prompt_lower then
    { intent := "Clean up MIDI recording"
      complexity := "simple"
      workflow := [{ agent_type := "utility"
                     action := "cleanup_recording"
                     parameters := [("clip_id", dictGetD session_context "selected_clip" Value.null)]
                     depends_on := [] }] }
  else if anyWordIn melodyWords prompt_lower then
    { intent := "Generate melody"
      complexity := "medium"
      workflow := [{ agent_type := "melody"
                     action := "generate_melody"
                     parameters := [("style", Value.str "detect from prompt"),
                                    ("key", dictGetD session_context "key" (Value.str "C major")),
                                    ("length_bars", Value.num 8)]
                     depends_on := [] }] }
  else if anyWordIn drumWords prompt_lower then
    { intent := "Generate drum pattern"
      complexity := "medium"
      workflow := [{ agent_type := "percussion"
                     action := "generate_drums"
                     parameters := [("style", Value.str "detect from prompt"),
                                    ("tempo", dictGetD session_context "tempo" (Value.num 120)),
                                    ("bars", Value.num 4)]
                     depends_on := [] }] }
  else
    { intent := "Unknown request"
      complexity := "complex"
      workflow := [] }

/-- Outcome of the single OpenAI exchange inside `_analyze_with_llm`:
either the awaited call raised, or it produced a response content string. -/
inductive OracleResult where
  | raised : OracleResult
  | response : String → OracleResult

/-- Embeds `OrchestratorAgent._analyze_with_llm`. `parse` stands for
`json.loads` plus field extraction on the response content: `none` when the
content is not valid JSON of the expected shape (in Python, `json.loads` or
the subsequent key access raises and the `except` clause runs). Any failure
falls back to `_analyze_with_patterns`. -/
def analyze_with_llm (parse : String → Option Analysis) (oracle : OracleResult)
    (user_prompt : String) (session_context : Dict) : Analysis :=
  match oracle with
  | OracleResult.raised => analyze_with_patterns user_prompt session_context
  | OracleResult.response content =>
    match parse content with
    | some analysis => analysis
    | none => analyze_with_patterns user_prompt session_context

/-- Embeds `OrchestratorAgent.analyze_user_intent`: the oracle-backed
strategy when the LLM is available, the rule-based strategy otherwise. -/
def analyze_user_intent (llm_available : Bool) (parse : String → Option Analysis)
    (oracle : OracleResult) (user_prompt : String) (session_context : Dict) : Analysis :=
  if llm_available then analyze_with_llm parse oracle user_prompt session_context
  else analyze_with_patterns user_prompt session_context

/-- The `state` record of a `GetTransportState` response. -/
structure TransportState where
  tempo : Int
  time_sig_num : Int
  time_sig_den : Int
  current_time : Int
  playing : Bool

/-- One track record of a `GetTracks` response. -/
structure Track where
  track_id : String
  name : String
  type : String

/-- A `GetSessionInfo` response. -/
structure SessionInfo where
  session_name : String
  sample_rate : Int

/-- Embeds `OrchestratorAgent.get_session_context`. The three gRPC queries
are awaited sequentially inside one `try`; each argument is `none` when the
corresponding query raises `grpc.RpcError`. A raise anywhere sends control
to the single `except` clause, which returns the empty dict; only when all
three succeed is the populated context built. -/
def get_session_context (tq : Option TransportState) (kq : Option (List Track))
    (sq : Option SessionInfo) : Dict :=
  match tq with
  | none => []
  | some transport =>
    match kq with
    | none => []
    | some tracks =>
      match sq with
      | none => []
      | some session =>
        [("tempo", Value.num transport.tempo),
         ("time_signature",
          Value.str (toString transport.time_sig_num ++ "/" ++ toString transport.time_sig_den)),
         ("current_time", Value.num transport.current_time),
         ("playing", Value.bool transport.playing),
         ("track_count", Value.num (Int.ofNat tracks.length)),
         ("tracks", Value.list (tracks.map (fun t =>
            Value.obj [("id", Value.str t.track_id),
                       ("name", Value.str t.name),
                       ("type", Value.str t.type)]))),
         ("session_name", Value.str session.session_name),
         ("sample_rate", Value.num session.sample_rate)]

/-- An agent descriptor as returned by `GetConnectedAgents`. -/
structure Agent where
  agent_id : String
  name : String
  type : String
  capabilities : List String

/-- Embeds `OrchestratorAgent.get_connected_agents`. `resp` is `none` when
the `GetConnectedAgents` call raises `grpc.RpcError`. Returns the new
`self.connected_agents` mapping together with the method's return value:
on success the mapping is rebuilt from the response and the agent list is
returned; on failure the except clause logs, the mapping is left as it was
(the rebuilding assignment is never reached) and `[]` is returned. -/
def get_connected_agents (connected : List (String × Agent)) (resp : Option (List Agent)) :
    List (String × Agent) × List Agent :=
  match resp with
  | some agents => (agents.map (fun a => (a.agent_id, a)), agents)
  | none => (connected, [])

/-- Result of one `SendMessageToAgent` call in `execute_workflow`:
a successful acknowledgment, a response with `success == False` carrying
`resp.message`, or a raised `grpc.RpcError`. -/
inductive SendResult where
  | ok : SendResult
  | rejected : String → SendResult
  | rpcError : String → SendResult

/-- One `logger` line emitted by the body of the `execute_workflow` loop,
tagged with the index of the step being processed. -/
inductive Event where
  | stepHeader : Nat → String → String → Event
  | depMissing : Nat → String → Event
  | resolutionFailure : Nat → String → Event
  | sentOk : Nat → String → Event
  | sendRejected : Nat → String → Event
  | transportError : Nat → String → Event
deriving DecidableEq

/-- The positional step identifier `f"step_{i}"`. -/
def mkStepId (i : Nat) : String := "step_" ++ toString i

/-- The dependency-check errors of one step: one `logger.error` per entry of
`depends_on` that is not a key of `completed_steps`. (The `continue` in the
source is the last statement of the inner `for` body, so it never skips the
rest of the step.) When `depends_on` is empty the guarding
`if step.get("depends_on")` is falsy and nothing is logged, which coincides
with filtering the empty list. -/
def depEvents (completed : List (String × Bool)) (i : Nat) (step : Step) : List Event :=
  step.depends_on.filterMap (fun dep =>
    if (completed.find? (fun kv => kv.1 == dep)).isSome then none
    else some (Event.depMissing i dep))

/-- Agent resolution in `execute_workflow`: iterate
`self.connected_agents.values()` and take the first agent whose `type`
matches the step's `agent_type` (the loop breaks on the first hit). -/
def findAgent (agents : List Agent) (t : String) : Option Agent :=
  agents.find? (fun a => a.type == t)

/-- Body of the `for i, step in enumerate(workflow)` loop of
`execute_workflow`, for one step: produces the log events of the iteration
and the updated `completed_steps` mapping. `send i` is the environment's
response to the (at most one) `SendMessageToAgent` call made for step `i`. -/
def execStep (agents : List Agent) (send : Nat → SendResult)
    (completed : List (String × Bool)) (i : Nat) (step : Step) :
    List Event × List (String × Bool) :=
  let header := [Event.stepHeader i step.action step.agent_type]
  let deps := depEvents completed i step
  match findAgent agents step.agent_type with
  | none => (header ++ deps ++ [Event.resolutionFailure i step.agent_type], completed)
  | some target =>
    match send i with
    | SendResult.ok =>
        (header ++ deps ++ [Event.sentOk i target.name], completed ++ [(mkStepId i, true)])
    | SendResult.rejected m => (header ++ deps ++ [Event.sendRejected i m], completed)
    | SendResult.rpcError m => (header ++ deps ++ [Event.transportError i m], completed)

/-- The loop of `execute_workflow`, threading `completed_steps` and
accumulating the log, with `i` the index of the first remaining step. -/
def execLoop (agents : List Agent) (send : Nat → SendResult) :
    Nat → List (String × Bool) → List Step → List Event × List (String × Bool)
  | _, completed, [] => ([], completed)
  | i, completed, step :: rest =>
    let r := execStep agents send completed i step
    let rr := execLoop agents send (i + 1) r.2 rest
    (r.1 ++ rr.1, rr.2)

/-- Embeds `OrchestratorAgent.execute_workflow`: starts with an empty
`completed_steps` dict and processes every step of the workflow in declared
order. Returns the full log trace and the final `completed_steps`. -/
def execute_workflow (agents : List Agent) (send : Nat → SendResult)
    (workflow : List Step) : List Event × List (String × Bool) :=
  execLoop agents send 0 [] workflow

/-- Whether step `i` ends up recorded in `completed_steps`: an agent of the
step's type was found and the send was acknowledged successfully. -/
def stepSuccess (agents : List Agent) (send : Nat → SendResult) (i : Nat) (step : Step) : Bool :=
  (findAgent agents step.agent_type).isSome &&
    (match send i with
     | SendResult.ok => true
     | _ => false)

/-- The terminal disposition logged for step `i`: resolution failure when no
agent of the required type is connected, otherwise the outcome of the send. -/
def stepOutcome (agents : List Agent) (send : Nat → SendResult) (i : Nat) (step : Step) : Event :=
  match findAgent agents step.agent_type with
  | none => Event.resolutionFailure i step.agent_type
  | some target =>
    match send i with
    | SendResult.ok => Event.sentOk i target.name
    | SendResult.rejected m => Event.sendRejected i m
    | SendResult.rpcError m => Event.transportError i m

/-- Events that state a step's terminal disposition (everything except the
per-step header line and the advisory dependency lines). -/
def isOutcome : Event → Bool
  | Event.stepHeader _ _ _ => false
  | Event.depMissing _ _ => false
  | _ => true

/-- The per-step header lines. -/
def isHeader : Event → Bool
  | Event.stepHeader _ _ _ => true
  | _ => false

/-- `withIdx i l` pairs each element of `l` with its position, starting
at `i` (the `enumerate` of the dispatch loop). -/
def withIdx : Nat → List Step → List (Nat × Step)
  | _, [] => []
  | i, s :: rest => (i, s) :: withIdx (i + 1) rest

/-- Advisory dependency lines are dropped by any filter rejecting
`depMissing` events. -/
theorem depEvents_filter_none (q : Event → Bool)
    (hq : ∀ j d, q (Event.depMissing j d) = false)
    (completed : List (String × Bool)) (i : Nat) (step : Step) :
    (depEvents completed i step).filter q = [] := by
  rw [List.filter_eq_nil_iff]
  intro e he
  rw [depEvents, List.mem_filterMap] at he
  obtain ⟨d, _, hfd⟩ := he
  by_cases hc : (completed.find? (fun kv => kv.1 == d)).isSome = true
  · rw [if_pos hc] at hfd
    exact absurd hfd (by simp)
  · rw [if_neg hc] at hfd
    have he2 : Event.depMissing i d = e := by
      exact Option.some.inj hfd
    subst he2
    simp [hq]

/-- Advisory dependency lines are not outcome events. -/
theorem depEvents_filter_isOutcome (completed : List (String × Bool)) (i : Nat) (step : Step) :
    (depEvents completed i step).filter isOutcome = [] :=
  depEvents_filter_none isOutcome (fun _ _ => rfl) completed i step

/-- Advisory dependency lines are not header events. -/
theorem depEvents_filter_isHeader (completed : List (String × Bool)) (i : Nat) (step : Step) :
    (depEvents completed i step).filter isHeader = [] :=
  depEvents_filter_none isHeader (fun _ _ => rfl) completed i step

/-- The terminal disposition is an outcome event. -/
theorem isOutcome_stepOutcome (agents : List Agent) (send : Nat → SendResult) (i : Nat)
    (step : Step) : isOutcome (stepOutcome agents send i step) = true := by
  unfold stepOutcome
  cases findAgent agents step.agent_type with
  | none => rfl
  | some target => cases send i <;> rfl

/-- The terminal disposition is not a header event. -/
theorem isHeader_stepOutcome (agents : List Agent) (send : Nat → SendResult) (i : Nat)
    (step : Step) : isHeader (stepOutcome agents send i step) = false := by
  unfold stepOutcome
  cases findAgent agents step.agent_type with
  | none => rfl
  | some target => cases send i <;> rfl

/-- Shape of one loop iteration's log: the header line, then the advisory
dependency lines, then exactly one terminal disposition. -/
theorem execStep_fst (agents : List Agent) (send : Nat → SendResult)
    (completed : List (String × Bool)) (i : Nat) (step : Step) :
    (execStep agents send completed i step).1 =
      Event.stepHeader i step.action step.agent_type ::
        (depEvents completed i step ++ [stepOutcome agents send i step]) := by
  unfold execStep stepOutcome
  cases findAgent agents step.agent_type with
  | none => simp
  | some target => cases send i <;> simp

/-- One loop iteration appends `(step_i, True)` to `completed_steps` exactly
when the step's send was acknowledged, and leaves it unchanged otherwise. -/
theorem execStep_snd (agents : List Agent) (send : Nat → SendResult)
    (completed : List (String × Bool)) (i : Nat) (step : Step) :
    (execStep agents send completed i step).2 =
      completed ++ (if stepSuccess agents send i step then [(mkStepId i, true)] else []) := by
  unfold execStep stepSuccess
  cases findAgent agents step.agent_type with
  | none => simp
  | some target => cases send i <;> simp

/-- The outcome lines of a run of the dispatch loop: exactly one per
remaining step, in declared order, each the step's own disposition. -/
theorem execLoop_outcomes (agents : List Agent) (send : Nat → SendResult) :
    ∀ (steps : List Step) (i : Nat) (completed : List (String × Bool)),
      ((execLoop agents send i completed steps).1).filter isOutcome =
        (withIdx i steps).map (fun p => stepOutcome agents send p.1 p.2)
  | [], _, _ => rfl
  | step :: rest, i, completed => by
    have ih := execLoop_outcomes agents send rest (i + 1)
      (execStep agents send completed i step).2
    simp only [execLoop, withIdx, List.map_cons, List.filter_append]
    rw [execStep_fst agents send completed i step]
    rw [List.filter_cons_of_neg (by simp [isOutcome])]
    rw [List.filter_append, depEvents_filter_isOutcome]
    rw [List.filter_cons_of_pos (isOutcome_stepOutcome agents send i step)]
    simp [ih]

/-- The header lines of a run of the dispatch loop: exactly one per
remaining step, in declared order. -/
theorem execLoop_headers (agents : List Agent) (send : Nat → SendResult) :
    ∀ (steps : List Step) (i : Nat) (completed : List (String × Bool)),
      ((execLoop agents send i completed steps).1).filter isHeader =
        (withIdx i steps).map (fun p => Event.stepHeader p.1 p.2.action p.2.agent_type)
  | [], _, _ => rfl
  | step :: rest, i, completed => by
    have ih := execLoop_headers agents send rest (i + 1)
      (execStep agents send completed i step).2
    simp only [execLoop, withIdx, List.map_cons, List.filter_append]
    rw [execStep_fst agents send completed i step]
    rw [List.filter_cons_of_pos (by simp [isHeader])]
    rw [List.filter_append, depEvents_filter_isHeader]
    rw [List.filter_cons_of_neg (by simp [isHeader_stepOutcome agents send i step])]
    simp [ih]

/-- The final `completed_steps` of a run of the dispatch loop: the entries
present at entry, followed by `(step_j, True)` for exactly the remaining
steps `j` whose send was acknowledged. -/
theorem execLoop_snd (agents : List Agent) (send : Nat → SendResult) :
    ∀ (steps : List Step) (i : Nat) (completed : List (String × Bool)),
      (execLoop agents send i completed steps).2 =
        completed ++
          ((withIdx i steps).filter (fun p => stepSuccess agents send p.1 p.2)).map
            (fun p => (mkStepId p.1, true))
  | [], _, _ => by simp [execLoop, withIdx]
  | step :: rest, i, completed => by
    have ih := execLoop_snd agents send rest (i + 1)
      (execStep agents send completed i step).2
    simp only [execLoop]
    rw [ih, execStep_snd agents send completed i step]
    simp only [withIdx, List.filter_cons]
    cases h : stepSuccess agents send i step <;> simp [h]

/-- Each remaining step appears, with its index, in `withIdx`. -/
theorem withIdx_get_mem :
    ∀ (steps : List Step) (i j : Nat) (hj : j < steps.length),
      (i + j, steps.get ⟨j, hj⟩) ∈ withIdx i steps
  | step :: rest, i, 0, _ => by simp [withIdx]
  | step :: rest, i, Nat.succ j, hj => by
    have h := withIdx_get_mem rest (i + 1) j (Nat.lt_of_succ_lt_succ hj)
    have e : i + (j + 1) = (i + 1) + j := by omega
    rw [e]
    exact List.mem_cons_of_mem _ h

/-- `withIdx` preserves length. -/
theorem withIdx_length : ∀ (i : Nat) (steps : List Step), (withIdx i steps).length = steps.length
  | _, [] => rfl
  | i, _ :: rest => by simp [withIdx, withIdx_length (i + 1) rest]

/-- C2: for every Plan, executing it with the Workflow Dispatcher yields
exactly one outcome for each step, in the Plan's declared order, regardless
of any earlier step's dependency, resolution, or dispatch failure: the
outcome lines of the execution report are precisely each step's own
disposition, indexed in declared order, one per step. -/
theorem execute_workflow_one_outcome_per_step (agents : List Agent)
    (send : Nat → SendResult) (workflow : List Step) :
    ((execute_workflow agents send workflow).1).filter isOutcome =
      (withIdx 0 workflow).map (fun p => stepOutcome agents send p.1 p.2) ∧
    (((execute_workflow agents send workflow).1).filter isOutcome).length =
      workflow.length := by
  refine ⟨execLoop_outcomes agents send workflow 0 [], ?_⟩
  rw [execute_workflow, execLoop_outcomes agents send workflow 0 [], List.length_map]
  exact withIdx_length 0 workflow

/-- C9: invariant of one Plan's execution: the final ExecutionState
(`completed_steps`) consists of exactly the pairs `(step_j, True)` for the
steps `j` whose task-message send returned a successful acknowledgment;
steps that fail agent resolution, are negatively acknowledged, or hit a
transport error leave no entry at all, and no failed status is ever
recorded (every stored value is `True`). -/
theorem execute_workflow_completed_iff_acked (agents : List Agent)
    (send : Nat → SendResult) (workflow : List Step) :
    (execute_workflow agents send workflow).2 =
      ((withIdx 0 workflow).filter (fun p => stepSuccess agents send p.1 p.2)).map
        (fun p => (mkStepId p.1, true)) := by
  have h := execLoop_snd agents send workflow 0 []
  simpa using h

/-- C6: when the registry query of a refresh raises, the previously stored
agent mapping is returned entirely unchanged (stale-but-available) and the
caller receives the failure result `[]`; the mapping is not cleared. -/
theorem get_connected_agents_failure_keeps_mapping (connected : List (String × Agent)) :
    get_connected_agents connected none = (connected, []) := rfl

/-- C3: when the oracle invocation raises, or its response fails to parse
as a JSON Plan, `analyze_with_llm` still returns a Plan without propagating
the failure, and that Plan is exactly the one the rule-based strategy
produces for the same request and snapshot. -/
theorem analyze_with_llm_fallback (parse : String → Option Analysis)
    (oracle : OracleResult) (user_prompt : String) (session_context : Dict)
    (h : oracle = OracleResult.raised ∨
         ∃ c, oracle = OracleResult.response c ∧ parse c = none) :
    analyze_with_llm parse oracle user_prompt session_context =
      analyze_with_patterns user_prompt session_context := by
  rcases h with h | ⟨c, hc, hp⟩
  · subst h; rfl
  · subst hc; simp [analyze_with_llm, hp]

/-- Witness for C3 at a concrete failing oracle. -/
theorem analyze_with_llm_fallback_witness :
    analyze_with_llm (fun _ => none) OracleResult.raised "Generate a beat" [] =
      analyze_with_patterns "Generate a beat" [] :=
  analyze_with_llm_fallback (fun _ => none) OracleResult.raised
    "Generate a beat" [] (Or.inl rfl)

/-- C1 (amended): the Session Snapshot Reader is all-or-nothing: whenever
any of the three underlying queries fails — in particular when exactly one
fails and the other two succeed — it returns the empty snapshot, discarding
the successful query results. -/
theorem get_session_context_all_or_nothing (tq : Option TransportState)
    (kq : Option (List Track)) (sq : Option SessionInfo)
    (h : tq = none ∨ kq = none ∨ sq = none) :
    get_session_context tq kq sq = [] := by
  rcases h with h | h | h
  · subst h; rfl
  · subst h; cases tq <;> rfl
  · subst h; cases tq <;> cases kq <;> rfl

/-- Witness for the amended C1 at a concrete failing query. -/
theorem get_session_context_all_or_nothing_witness :
    get_session_context none none none = [] :=
  get_session_context_all_or_nothing none none none (Or.inl rfl)

/-- C1 as stated fails on the code: with the transport query succeeding,
the tracks query failing, and the session query succeeding (exactly one of
the three fails), the reader returns the empty snapshot instead of one
populated with the two successful results — even the tempo delivered by the
successful transport query is absent. -/
theorem get_session_context_partial_failure_counterexample :
    get_session_context
        (some { tempo := 120, time_sig_num := 4, time_sig_den := 4,
                current_time := 0, playing := false })
        none
        (some { session_name := "Untitled", sample_rate := 44100 }) = [] ∧
    dictGet (get_session_context
        (some { tempo := 120, time_sig_num := 4, time_sig_den := 4,
                current_time := 0, playing := false })
        none
        (some { session_name := "Untitled", sample_rate := 44100 })) "tempo" = none :=
  ⟨rfl, rfl⟩

/-- C4: a step reached with a dependency absent from ExecutionState has the
unmet dependency logged as advisory only and is still attempted: its
terminal outcome and its ExecutionState update are exactly those of the
same step with no declared dependencies, so the unmet dependency never
blocks the step. -/
theorem execStep_unmet_dependency_advisory (agents : List Agent)
    (send : Nat → SendResult) (completed : List (String × Bool)) (i : Nat)
    (step : Step) (dep : String) (hdep : dep ∈ step.depends_on)
    (habsent : completed.find? (fun kv => kv.1 == dep) = none) :
    Event.depMissing i dep ∈ (execStep agents send completed i step).1 ∧
    ((execStep agents send completed i step).1).filter isOutcome =
      ((execStep agents send completed i
        { step with depends_on := [] }).1).filter isOutcome ∧
    (execStep agents send completed i step).2 =
      (execStep agents send completed i { step with depends_on := [] }).2 := by
  refine ⟨?_, ?_, ?_⟩
  · rw [execStep_fst]
    refine List.mem_cons_of_mem _ (List.mem_append_left _ ?_)
    rw [depEvents, List.mem_filterMap]
    refine ⟨dep, hdep, ?_⟩
    rw [habsent]
    rfl
  · rw [execStep_fst, execStep_fst]
    rw [List.filter_cons_of_neg (by simp [isOutcome]),
        List.filter_cons_of_neg (by simp [isOutcome])]
    rw [List.filter_append, List.filter_append,
        depEvents_filter_isOutcome, depEvents_filter_isOutcome]
    rfl
  · rw [execStep_snd, execStep_snd]
    rfl

/-- Witness for C4 at a concrete step with an unmet dependency. -/
theorem execStep_unmet_dependency_advisory_witness :
    Event.depMissing 0 "step_7" ∈
      (execStep [] (fun _ => SendResult.ok) [] 0
        { agent_type := "utility", action := "cleanup_recording",
          parameters := [], depends_on := ["step_7"] }).1 ∧
    ((execStep [] (fun _ => SendResult.ok) [] 0
        { agent_type := "utility", action := "cleanup_recording",
          parameters := [], depends_on := ["step_7"] }).1).filter isOutcome =
      ((execStep [] (fun _ => SendResult.ok) [] 0
        { agent_type := "utility", action := "cleanup_recording",
          parameters := [], depends_on := [] }).1).filter isOutcome ∧
    (execStep [] (fun _ => SendResult.ok) [] 0
        { agent_type := "utility", action := "cleanup_recording",
          parameters := [], depends_on := ["step_7"] }).2 =
      (execStep [] (fun _ => SendResult.ok) [] 0
        { agent_type := "utility", action := "cleanup_recording",
          parameters := [], depends_on := [] }).2 :=
  execStep_unmet_dependency_advisory [] (fun _ => SendResult.ok) [] 0
    { agent_type := "utility", action := "cleanup_recording",
      parameters := [], depends_on := ["step_7"] } "step_7"
    (List.mem_singleton.mpr rfl) rfl

/-- C5: when a step's agent_type matches no connected agent, executing the
Plan logs a resolution failure for that step, raises nothing (the embedded
dispatcher is a total function) and does not abort: every step of the Plan,
the subsequent ones included, still gets its attempt line in the trace, one
per step in declared order. -/
theorem execute_workflow_resolution_failure_continues (agents : List Agent)
    (send : Nat → SendResult) (workflow : List Step) (i : Nat)
    (hi : i < workflow.length)
    (hres : findAgent agents (workflow.get ⟨i, hi⟩).agent_type = none) :
    Event.resolutionFailure i (workflow.get ⟨i, hi⟩).agent_type ∈
      (execute_workflow agents send workflow).1 ∧
    ((execute_workflow agents send workflow).1).filter isHeader =
      (withIdx 0 workflow).map
        (fun p => Event.stepHeader p.1 p.2.action p.2.agent_type) := by
  constructor
  · have hmem := withIdx_get_mem workflow 0 i hi
    rw [Nat.zero_add] at hmem
    have hout : stepOutcome agents send i (workflow.get ⟨i, hi⟩) ∈
        ((execute_workflow agents send workflow).1).filter isOutcome := by
      rw [execute_workflow, execLoop_outcomes]
      exact List.mem_map_of_mem _ hmem
    have h2 := List.mem_of_mem_filter hout
    have hso : stepOutcome agents send i (workflow.get ⟨i, hi⟩) =
        Event.resolutionFailure i (workflow.get ⟨i, hi⟩).agent_type := by
      rw [stepOutcome, hres]
    rwa [hso] at h2
  · rw [execute_workflow]
    exact execLoop_headers agents send workflow 0 []

/-- Witness for C5 at a one-step Plan targeting a type with no agent. -/
theorem execute_workflow_resolution_failure_continues_witness :
    Event.resolutionFailure 0 "percussion" ∈
      (execute_workflow [] (fun _ => SendResult.ok)
        [{ agent_type := "percussion", action := "generate_drums",
           parameters := [], depends_on := [] }]).1 ∧
    ((execute_workflow [] (fun _ => SendResult.ok)
        [{ agent_type := "percussion", action := "generate_drums",
           parameters := [], depends_on := [] }]).1).filter isHeader =
      [Event.stepHeader 0 "generate_drums" "percussion"] :=
  execute_workflow_resolution_failure_continues [] (fun _ => SendResult.ok)
    [{ agent_type := "percussion", action := "generate_drums",
       parameters := [], depends_on := [] }] 0 (by decide) rfl

/-- C7: for every request matching no keyword rule, with the oracle
disabled, analysis returns a Plan with an empty step list and complexity
"complex". -/
theorem analyze_no_keyword_match (parse : String → Option Analysis)
    (oracle : OracleResult) (user_prompt : String) (session_context : Dict)
    (h1 : anyWordIn cleanupWords (strToLower user_prompt) = false)
    (h2 : anyWordIn melodyWords (strToLower user_prompt) = false)
    (h3 : anyWordIn drumWords (strToLower user_prompt) = false) :
    (analyze_user_intent false parse oracle user_prompt session_context).workflow = [] ∧
    (analyze_user_intent false parse oracle user_prompt session_context).complexity =
      "complex" := by
  constructor <;> simp [analyze_user_intent, analyze_with_patterns, h1, h2, h3]

/-- Witness for C7 at a request matching no rule. -/
theorem analyze_no_keyword_match_witness :
    (analyze_user_intent false (fun _ => none) OracleResult.raised
      "hello" []).workflow = [] ∧
    (analyze_user_intent false (fun _ => none) OracleResult.raised
      "hello" []).complexity = "complex" :=
  analyze_no_keyword_match (fun _ => none) OracleResult.raised "hello" []
    (by decide) (by decide) (by decide)

/-- C8: for the request "Generate a rock drum pattern", rule-based analysis
returns exactly one step, with agent_type "percussion", action
"generate_drums", and parameters carrying tempo 140 (when the snapshot says
140) and bars 4; when the snapshot has no tempo, the tempo parameter
defaults to 120. -/
theorem drum_rule_tempo (ctx1 ctx2 : Dict)
    (h1 : dictGet ctx1 "tempo" = some (Value.num 140))
    (h2 : dictGet ctx2 "tempo" = none) :
    (analyze_with_patterns "Generate a rock drum pattern" ctx1).workflow =
      [{ agent_type := "percussion", action := "generate_drums",
         parameters := [("style", Value.str "detect from prompt"),
                        ("tempo", Value.num 140), ("bars", Value.num 4)],
         depends_on := [] }] ∧
    (analyze_with_patterns "Generate a rock drum pattern" ctx2).workflow =
      [{ agent_type := "percussion", action := "generate_drums",
         parameters := [("style", Value.str "detect from prompt"),
                        ("tempo", Value.num 120), ("bars", Value.num 4)],
         depends_on := [] }] := by
  have hc : anyWordIn cleanupWords (strToLower "Generate a rock drum pattern") = false := by
    decide
  have hm : anyWordIn melodyWords (strToLower "Generate a rock drum pattern") = false := by
    decide
  have hd : anyWordIn drumWords (strToLower "Generate a rock drum pattern") = true := by
    decide
  constructor <;> simp [analyze_with_patterns, hc, hm, hd, dictGetD, h1, h2]

/-- Witness for C8 at concrete snapshots with and without a tempo. -/
theorem drum_rule_tempo_witness :
    (analyze_with_patterns "Generate a rock drum pattern"
        [("tempo", Value.num 140)]).workflow =
      [{ agent_type := "percussion", action := "generate_drums",
         parameters := [("style", Value.str "detect from prompt"),
                        ("tempo", Value.num 140), ("bars", Value.num 4)],
         depends_on := [] }] ∧
    (analyze_with_patterns "Generate a rock drum pattern" []).workflow =
      [{ agent_type := "percussion", action := "generate_drums",
         parameters := [("style", Value.str "detect from prompt"),
                        ("tempo", Value.num 120), ("bars", Value.num 4)],
         depends_on := [] }] :=
  drum_rule_tempo [("tempo", Value.num 140)] [] rfl rfl

/-- The Session Snapshot Reader never emits a "selected_clip" key: its
output is either empty or carries exactly the eight fixed keys. -/
theorem get_session_context_no_selected_clip (tq : Option TransportState)
    (kq : Option (List Track)) (sq : Option SessionInfo) :
    dictGet (get_session_context tq kq sq) "selected_clip" = none := by
  cases tq <;> cases kq <;> cases sq <;> rfl

/-- C10: for every session context the Session Snapshot Reader can produce,
the cleanup rule's emitted step has parameters with clip_id = None, because
the reader never populates the "selected_clip" key the rule reads. -/
theorem cleanup_rule_clip_id_null (tq : Option TransportState)
    (kq : Option (List Track)) (sq : Option SessionInfo) (user_prompt : String)
    (h : anyWordIn cleanupWords (strToLower user_prompt) = true) :
    (analyze_with_patterns user_prompt (get_session_context tq kq sq)).workflow =
      [{ agent_type := "utility", action := "cleanup_recording",
         parameters := [("clip_id", Value.null)], depends_on := [] }] := by
  simp [analyze_with_patterns, h, dictGetD,
    get_session_context_no_selected_clip tq kq sq]

/-- Witness for C10 at a fully successful snapshot read and the cleanup
request from the repository's own examples. -/
theorem cleanup_rule_clip_id_null_witness :
    (analyze_with_patterns "Clean up the piano recording"
        (get_session_context
          (some { tempo := 120, time_sig_num := 4, time_sig_den := 4,
                  current_time := 0, playing := false })
          (some [])
          (some { session_name := "Untitled", sample_rate := 44100 }))).workflow =
      [{ agent_type := "utility", action := "cleanup_recording",
         parameters := [("clip_id", Value.null)], depends_on := [] }] :=
  cleanup_rule_clip_id_null
    (some { tempo := 120, time_sig_num := 4, time_sig_den := 4,
            current_time := 0, playing := false })
    (some [])
    (some { session_name := "Untitled", sample_rate := 44100 })
    "Clean up the piano recording" (by decide)
